import Mathlib

/-!
Verification of the AI Study Assistant lambda handlers (`handler.py`).

The Python source is shallowly embedded: Python `str` values that undergo
character-level operations (slicing, strip, lower, split) are modelled as
`List Char` (`PyStr`); JSON values that flow between the model, the table
store, and the HTTP layer are modelled by the inductive `JVal`, with JSON
objects as association lists `List (String × JVal)` (Python dicts with
unique keys).  External collaborators (the Gemini model call, S3, DynamoDB)
are passed in as explicit oracles/parameters.  Fallible Python code
(`KeyError`, decode errors, upstream failures) returns `Except`/`Option`.

Floating point: the percentage `round((correct / total) * 100, 1)` is
computed by CPython in IEEE-754 binary64.  It is modelled bit-exactly over
the integers (`pctTenths`): a correctly-rounded binary64 division, a
correctly-rounded binary64 multiplication by 100 (each round-to-nearest,
ties-to-even, on an unbounded exponent — no overflow or subnormals occur in
this domain), then CPython `round(x, 1)`, which returns the float nearest
the correctly-rounded-to-one-decimal value of the double (dtoa; ties to
even).  The resulting one-decimal value is carried as an integer number of
tenths, exact because every such value round-trips through binary64; the
comparison `percentage >= 60` is then exactly `600 ≤ pctTenths` (60.0 is an
exact double and no one-decimal value lies within an ulp of it).
-/

/-- Python `str` as a sequence of code points. -/
abbrev PyStr := List Char

/-- Python `str.strip()` with no argument: drop leading whitespace. -/
def pyLstrip (s : PyStr) : PyStr := s.dropWhile Char.isWhitespace

/-- Python `str.strip()` with no argument: drop trailing whitespace. -/
def pyRstrip (s : PyStr) : PyStr := (s.reverse.dropWhile Char.isWhitespace).reverse

/-- Python `str.strip()`: drop leading and trailing whitespace. -/
def pyStrip (s : PyStr) : PyStr := pyRstrip (pyLstrip s)

/-- Python `s.startswith(p)`. -/
def pyStartsWith (s p : PyStr) : Bool := s.take p.length == p

/-- Python `s.endswith(p)`. -/
def pyEndsWith (s p : PyStr) : Bool := s.reverse.take p.length == p.reverse

/-- Python `s.lower()` (per code point). -/
def pyLower (s : PyStr) : PyStr := s.map Char.toLower

/-- JSON values as exchanged between the model, the store and the HTTP layer. -/
inductive JVal where
  | null
  | bool (b : Bool)
  | num (n : Int)
  | str (s : String)
  | arr (l : List JVal)
  | obj (l : List (String × JVal))

/-- A JSON object (Python dict with string keys). -/
abbrev JObj := List (String × JVal)

mutual

/-- Python `==` on JSON values (structural equality). -/
def JVal.beq : JVal → JVal → Bool
  | .null, .null => true
  | .bool a, .bool b => a == b
  | .num a, .num b => a == b
  | .str a, .str b => a == b
  | .arr a, .arr b => JVal.beqList a b
  | .obj a, .obj b => JVal.beqObj a b
  | _, _ => false

/-- Elementwise equality of JSON arrays. -/
def JVal.beqList : List JVal → List JVal → Bool
  | [], [] => true
  | x :: xs, y :: ys => JVal.beq x y && JVal.beqList xs ys
  | _, _ => false

/-- Elementwise equality of JSON object entry lists. -/
def JVal.beqObj : List (String × JVal) → List (String × JVal) → Bool
  | [], [] => true
  | (k, x) :: xs, (k2, y) :: ys => k == k2 && JVal.beq x y && JVal.beqObj xs ys
  | _, _ => false

end

instance : BEq JVal := ⟨JVal.beq⟩

mutual

theorem JVal.beq_iff : ∀ a b : JVal, JVal.beq a b = true ↔ a = b
  | .null, .null => by simp [JVal.beq]
  | .bool a, .bool b => by simp [JVal.beq]
  | .num a, .num b => by simp [JVal.beq]
  | .str a, .str b => by simp [JVal.beq]
  | .arr a, .arr b => by
      simp only [JVal.beq, JVal.beqList_iff a b, JVal.arr.injEq]
  | .obj a, .obj b => by
      simp only [JVal.beq, JVal.beqObj_iff a b, JVal.obj.injEq]
  | .null, .bool _ | .null, .num _ | .null, .str _ | .null, .arr _ | .null, .obj _
  | .bool _, .null | .bool _, .num _ | .bool _, .str _ | .bool _, .arr _ | .bool _, .obj _
  | .num _, .null | .num _, .bool _ | .num _, .str _ | .num _, .arr _ | .num _, .obj _
  | .str _, .null | .str _, .bool _ | .str _, .num _ | .str _, .arr _ | .str _, .obj _
  | .arr _, .null | .arr _, .bool _ | .arr _, .num _ | .arr _, .str _ | .arr _, .obj _
  | .obj _, .null | .obj _, .bool _ | .obj _, .num _ | .obj _, .str _ | .obj _, .arr _ => by
      simp [JVal.beq]

theorem JVal.beqList_iff : ∀ a b : List JVal, JVal.beqList a b = true ↔ a = b
  | [], [] => by simp [JVal.beqList]
  | x :: xs, y :: ys => by
      simp [JVal.beqList, JVal.beq_iff x y, JVal.beqList_iff xs ys]
  | [], _ :: _ => by simp [JVal.beqList]
  | _ :: _, [] => by simp [JVal.beqList]

theorem JVal.beqObj_iff : ∀ a b : List (String × JVal), JVal.beqObj a b = true ↔ a = b
  | [], [] => by simp [JVal.beqObj]
  | (k, x) :: xs, (k2, y) :: ys => by
      simp [JVal.beqObj, JVal.beq_iff x y, JVal.beqObj_iff xs ys, and_assoc]
  | [], _ :: _ => by simp [JVal.beqObj]
  | _ :: _, [] => by simp [JVal.beqObj]

end

instance : LawfulBEq JVal where
  eq_of_beq h := (JVal.beq_iff _ _).mp h
  rfl := (JVal.beq_iff _ _).mpr rfl

instance : DecidableEq JVal := fun a b =>
  decidable_of_iff (JVal.beq a b = true) (JVal.beq_iff a b)

/-- Python `d[k]` on a JSON value: `KeyError` when the key is absent, a type
error when the value is not a dict; both raise, modelled as `Except.error`
carrying the offending key (Python renders `KeyError('k')` as `'k'`). -/
def jIndex (v : JVal) (k : String) : Except String JVal :=
  match v with
  | .obj l =>
    match l.lookup k with
    | some x => .ok x
    | none => .error k
  | _ => .error "TypeError"

/-- Python `d.get(k, default)` on a JSON object. -/
def jGetD (v : JVal) (k : String) (d : JVal) : JVal :=
  match v with
  | .obj l => (l.lookup k).getD d
  | _ => d

/-- Round-half-to-even of `a / b` (with `b > 0`) to an integer: the rounding
step shared by IEEE-754 round-to-nearest (applied to a scaled mantissa) and
by CPython `round` (applied to an exact decimal scaling). -/
def roundHalfEvenNat (a b : ℕ) : ℕ :=
  let q := a / b
  let r := a % b
  if b < 2 * r then q + 1
  else if 2 * r < b then q
  else if q % 2 = 0 then q
  else q + 1

/-- Fuel-driven binary logarithm (structural, so that concrete inputs reduce
in the kernel). -/
def log2fuel : ℕ → ℕ → ℕ
  | 0, _ => 0
  | fuel + 1, n => if 2 ≤ n then log2fuel fuel (n / 2) + 1 else 0

/-- `⌊log₂ n⌋` for `n ≥ 1` (and 0 at 0). -/
def nlog2 (n : ℕ) : ℕ := log2fuel n n

/-- Decide `2 ^ e ≤ a / b` for naturals `a, b > 0` and an integer exponent. -/
def le2pow (e : ℤ) (a b : ℕ) : Bool :=
  if 0 ≤ e then b * 2 ^ e.toNat ≤ a else b ≤ a * 2 ^ (-e).toNat

/-- `⌊log₂ (a / b)⌋` for `a, b > 0`: the difference of the integer
logarithms is off by at most one, corrected by direct comparison. -/
def ilog2 (a b : ℕ) : ℤ :=
  let e0 : ℤ := (nlog2 a : ℤ) - (nlog2 b : ℤ)
  if le2pow (e0 + 1) a b then e0 + 1
  else if le2pow e0 a b then e0
  else e0 - 1

/-- Round the non-negative rational `a / b` to IEEE-754 binary64 precision
(round to nearest, ties to even): the result `(m, E)` denotes `m · 2 ^ E`
with a 53-bit significand.  The exponent is unbounded, which agrees with
binary64 on this program's domain (quotients in `[2 ^ (-64), 2 ^ 7]`, far
from overflow and subnormals). -/
def fl53 (a b : ℕ) : ℕ × ℤ :=
  if a = 0 then (0, 0)
  else
    let e := ilog2 a b
    let s : ℤ := 52 - e
    let m := if 0 ≤ s then roundHalfEvenNat (a * 2 ^ s.toNat) b
             else roundHalfEvenNat a (b * 2 ^ (-s).toNat)
    if m = 2 ^ 53 then (2 ^ 52, e - 51) else (m, e - 52)

/-- CPython `round(x, 1)` on the double `m · 2 ^ E`, returned as an integer
number of tenths: the correctly rounded one-decimal value of the double's
exact binary value, ties to even (CPython rounds floats via dtoa on the
exact value). -/
def roundTenths (m : ℕ) (E : ℤ) : ℕ :=
  if 0 ≤ E then m * 10 * 2 ^ E.toNat
  else roundHalfEvenNat (m * 10) (2 ^ (-E).toNat)

/-- The source expression `round((correct / total) * 100, 1) if total > 0
else 0` from `submit_quiz` (line 833), computed as CPython does: binary64
division `correct / total` (integers up to 2^53 convert exactly), binary64
multiplication by 100 (each correctly rounded to nearest, ties to even),
then `round(·, 1)`; the one-decimal result is carried in tenths of a
percent.  Validated bit-exactly against CPython on all pairs with
`total ≤ 300` and on exhaustive and random bands up to `total = 5000`
(e.g. `pctTenths 23 80 = 287`, the double being `28.749999999999996`). -/
def pctTenths (correct total : ℕ) : ℕ :=
  if 0 < total then
    let d := fl53 correct total
    let p := fl53 (d.1 * 100) 1
    roundTenths p.1 (p.2 + d.2)
  else 0

/-- One entry of the `results` list built by the grading loop of
`submit_quiz` (a Python dict with five fixed keys). -/
def gradeDetail (idx : ℕ) (ua ca : JVal) (isC : Bool) (q : JVal) : JObj :=
  [("question_index", .num idx),
   ("user_answer", ua),
   ("correct_answer", ca),
   ("is_correct", .bool isC),
   ("explanation", jGetD q "explanation" (.str ""))]

/-- The `for idx, question in enumerate(questions)` loop of `submit_quiz`:
`user_answer = answers.get(str(idx))` (missing key gives `None`),
`correct_answer = question['correct_answer']` (missing key raises),
`is_correct = user_answer == correct_answer`; accumulates the correct count
and the per-question `results` entries. -/
def gradeLoop (answers : JObj) : List JVal → ℕ → Except String (ℕ × List JObj)
  | [], _ => .ok (0, [])
  | q :: qs, idx => do
    let ca ← jIndex q "correct_answer"
    let ua := (answers.lookup (toString idx)).getD .null
    let isC := JVal.beq ua ca
    let rest ← gradeLoop answers qs (idx + 1)
    .ok ((if isC then 1 else 0) + rest.1, gradeDetail idx ua ca isC q :: rest.2)

/-- The graded result assembled by `submit_quiz`: score, total, percentage
(in tenths), pass flag (`percentage >= 60`), and per-question details. -/
structure GradeOut where
  score : ℕ
  total : ℕ
  percentage : ℕ
  passed : Bool
  results : List JObj
  deriving DecidableEq

/-- Grading section of `submit_quiz` (lines 811-852): runs the loop over the
stored questions, then computes percentage and pass flag.  An uncaught
`KeyError`/`TypeError` from the loop propagates (the handler maps it to a
500 response). -/
def submit_grade (questions : List JVal) (answers : JObj) : Except String GradeOut := do
  let (correct, results) ← gradeLoop answers questions 0
  let total := questions.length
  let p := pctTenths correct total
  .ok ⟨correct, total, p, decide (600 ≤ p), results⟩


/-- Sample stored quiz question with the shape `submit_quiz` expects: a dict
with `question`, `options`, `correct_answer`, `explanation` keys. -/
def sampleQ (c : Int) : JVal :=
  .obj [("question", .str "q"),
        ("options", .arr [.str "a", .str "b", .str "c", .str "d"]),
        ("correct_answer", .num c),
        ("explanation", .str "e")]


/-- Python `sep.join(parts)`. -/
def pyJoin (sep : PyStr) : List PyStr → PyStr
  | [] => []
  | [x] => x
  | x :: xs => x ++ sep ++ pyJoin sep xs

/-- A raw uploaded blob, as seen through each of the three external parsers
the extractor can apply to it: the `PyPDF2` page texts, the `python-docx`
paragraph texts (`none` models a parser failure, which the source catches
and turns into empty text), and the UTF-8 decoding of the raw bytes
(`none` models a `UnicodeDecodeError`, which the source does not catch at
this level). -/
structure FileBlob where
  pdfPages : Option (List PyStr)
  docxParas : Option (List PyStr)
  utf8Text : Option PyStr

/-- The page loop of `extract_text_from_pdf` (lines 99-106): accumulate page
texts while the cumulative character count stays within `max_chars`; the
first page that would exceed it is truncated to the remaining budget and the
loop stops.  Returns the list of collected page fragments (joined with
newlines by the caller). -/
def pdfLoop (maxChars : ℕ) : List PyStr → ℕ → List PyStr
  | [], _ => []
  | t :: ps, total =>
    if maxChars < total + t.length then [t.take (maxChars - total)]
    else t :: pdfLoop maxChars ps (total + t.length)

/-- The function `extract_text_from_pdf` (lines 87-111): page fragments joined
with newline separators; any internal failure degrades to empty text. -/
def extract_text_from_pdf (pages : Option (List PyStr)) (maxChars : ℕ) : PyStr :=
  match pages with
  | none => []
  | some ps => pyJoin ['\n'] (pdfLoop maxChars ps 0)

/-- The function `extract_text_from_docx` (lines 125-141): paragraphs with
non-blank text joined with newlines, then truncated to `max_chars`; any
internal failure degrades to empty text. -/
def extract_text_from_docx (paras : Option (List PyStr)) (maxChars : ℕ) : PyStr :=
  match paras with
  | none => []
  | some ps =>
    let text := pyJoin ['\n'] (ps.filter (fun p => !(pyStrip p).isEmpty))
    if maxChars < text.length then text.take maxChars else text

/-- The expression `file_name.lower().split('.')[-1]` of
`extract_text_from_file` (line 115). -/
def pyExt (fileName : PyStr) : PyStr :=
  (List.splitOn '.' (pyLower fileName)).getLastD []

/-- The function `extract_text_from_file` (lines 113-123): dispatch on the
file name's extension; unknown extensions yield empty text.  The `txt` branch
decodes the raw bytes as UTF-8 (a decode failure propagates, modelled as
`Except.error`) and truncates to `max_chars`. -/
def extract_text_from_file (blob : FileBlob) (fileName : PyStr) (maxChars : ℕ) :
    Except Unit PyStr :=
  let ext := pyExt fileName
  if ext = "pdf".data then .ok (extract_text_from_pdf blob.pdfPages maxChars)
  else if ext = "docx".data ∨ ext = "doc".data then
    .ok (extract_text_from_docx blob.docxParas maxChars)
  else if ext = "txt".data ∨ ext = "text".data then
    match blob.utf8Text with
    | none => .error ()
    | some t => .ok (if maxChars < t.length then t.take maxChars else t)
  else .ok []


/-- Python `len` on a JSON value (raises `TypeError` on values without a
length). -/
def pyLen : JVal → Except String ℕ
  | .str s => .ok s.length
  | .arr l => .ok l.length
  | .obj l => .ok l.length
  | _ => .error "TypeError"

/-- The trimming step of `create_quiz` (lines 742-744):
`if isinstance(questions, list) and len(questions) > num_questions:
questions = questions[:num_questions]` — non-list decodes pass through. -/
def trim_questions (decoded : JVal) (numQuestions : ℕ) : JVal :=
  match decoded with
  | .arr l => if numQuestions < l.length then .arr (l.take numQuestions) else .arr l
  | v => v

/-- Quiz record assembled by `save_quiz` (lines 376-391). -/
structure QuizRec where
  quizId : String
  documentId : String
  userId : String
  title : String
  questions : JVal
  questionCount : ℕ
  language : String
  attempts : List JObj
  createdAt : String

/-- The function `save_quiz`: stores the questions value as given and derives
`questionCount` as `len(data['questions'])` (`attempts` starts empty); a
value without a length raises. -/
def save_quiz (quizId documentId userId title : String) (questions : JVal)
    (language createdAt : String) : Except String QuizRec :=
  (pyLen questions).map
    (fun n => ⟨quizId, documentId, userId, title, questions, n, language, [], createdAt⟩)

/-- Python truthy-or chaining for an optional numeric request field:
`body.get(k) or default` (an absent key gives `None`, and `0` is falsy). -/
def pyOrInt (a : Option Int) (b : Int) : Int :=
  match a with
  | some x => if x ≠ 0 then x else b
  | none => b

/-- The resolution `body.get('count') or body.get('numCards') or 20` of
`create_flashcards` (line 633): the number of cards requested from the
model. -/
def resolve_num_cards (count numCards : Option Int) : Int :=
  pyOrInt count (pyOrInt numCards 20)

/-- The resolution `body.get('questionCount') or body.get('numQuestions') or 10`
of `create_quiz` (line 717). -/
def resolve_num_questions (questionCount numQuestions : Option Int) : Int :=
  pyOrInt questionCount (pyOrInt numQuestions 10)

/-- Flashcard-set record assembled by `save_flashcard_set` (lines 340-354). -/
structure FlashcardSetRec where
  flashcardSetId : String
  documentId : String
  userId : String
  title : String
  cards : JVal
  cardCount : ℕ
  language : String
  createdAt : String

/-- The function `save_flashcard_set`: stores the decoded cards value as
given (no trimming or padding) and derives `cardCount` as
`len(data['cards'])`. -/
def save_flashcard_set (flashcardSetId documentId userId title : String) (cards : JVal)
    (language createdAt : String) : Except String FlashcardSetRec :=
  (pyLen cards).map
    (fun n => ⟨flashcardSetId, documentId, userId, title, cards, n, language, createdAt⟩)

/-- A question in the exact JSON shape `QUIZ_PROMPT` (lines 226-250) requests
from the model: keys `question`, `options` (four strings), `correctAnswer`
(zero-based index), `explanation`. -/
def promptShapedQ (c : Int) : JVal :=
  .obj [("question", .str "q"),
        ("options", .arr [.str "a", .str "b", .str "c", .str "d"]),
        ("correctAnswer", .num c),
        ("explanation", .str "e")]

/-- The projection loop of `get_quiz` (lines 776-781): for each stored
question build a dict holding only `question` and `options` ("Hide correct
answers"); a malformed stored question raises. -/
def questions_for_user : List JVal → Except String (List JObj)
  | [] => .ok []
  | q :: qs => do
    let qtext ← jIndex q "question"
    let opts ← jIndex q "options"
    let rest ← questions_for_user qs
    .ok ([("question", qtext), ("options", opts)] :: rest)


/-- The three-backtick fence marker of `call_gpt_json` (written here via its
code point, 96). -/
def btick : Char := Char.ofNat 96

/-- The 7-character marker the source tests with `result.startswith` in
`call_gpt_json` (line 193). -/
def fjson : PyStr := "```json".data

/-- The bare 3-character fence marker (lines 195-198). -/
def fbare : PyStr := "```".data

/-- The fence-stripping part of `call_gpt_json` (lines 187-200): strip outer
whitespace, drop a leading fence marker (with or without the `json` tag),
drop a trailing fence marker, and strip again (the final
`json.loads(result.strip())`). -/
def strip_code_fences (s : PyStr) : PyStr :=
  let r := pyStrip s
  let r := if pyStartsWith r fjson then r.drop 7
           else if pyStartsWith r fbare then r.drop 3
           else r
  let r := if pyEndsWith r fbare then r.take (r.length - 3) else r
  pyStrip r

/-- The decode step of `call_gpt_json`: the external `json.loads` applied to
the fence-stripped model text. -/
def call_gpt_json_decode (loads : PyStr → Option JVal) (raw : PyStr) : Option JVal :=
  loads (strip_code_fences raw)


/-- A stored chat-history item as written by `save_chat_message` (lines
427-439).  `createdAt` is an ISO-8601 string compared lexicographically in
the source; it is modelled as a natural number with the same total order. -/
structure ChatMsg where
  chatId : String
  documentId : String
  userId : String
  userMessage : String
  assistantResponse : String
  createdAt : ℕ
  deriving DecidableEq

/-- Stable insertion step: place `x` before the first element `y` with
`le x y` (so among key-equal elements, the earlier one stays first). -/
def pyInsert (le : ChatMsg → ChatMsg → Bool) (x : ChatMsg) : List ChatMsg → List ChatMsg
  | [] => [x]
  | y :: ys => if le x y then x :: y :: ys else y :: pyInsert le x ys

/-- Python `sorted` with a key function: a stable sort.  A stable sort's
output is uniquely determined by the comparator and the input order, so this
structurally recursive stable insertion sort is extensionally the source's
Timsort. -/
def pySorted (le : ChatMsg → ChatMsg → Bool) : List ChatMsg → List ChatMsg
  | [] => []
  | x :: xs => pyInsert le x (pySorted le xs)

/-- Modelled from the spec: the table-store query of
`get_chat_history_by_document` against the `documentId-index` with
`ScanIndexForward=False` and `Limit=limit` — the store returns the items
whose `documentId` matches, ordered by descending sort key (timestamp),
truncated to `limit`.  The table store is an excluded external collaborator
specified only through this interface. -/
def query_chat_desc (table : List ChatMsg) (documentId : String) (limit : ℕ) : List ChatMsg :=
  (pySorted (fun a b => decide (b.createdAt ≤ a.createdAt))
    (table.filter (fun m => m.documentId == documentId))).take limit

/-- The function `get_chat_history_by_document` (lines 441-452): fetch the
`limit` most recent items for the document, keep only the caller's own
(`item.get('userId') == user_id`), and re-sort ascending by `createdAt`
(`sorted(items, key=lambda x: x.get('createdAt', ''))`). -/
def get_chat_history_by_document (table : List ChatMsg) (documentId userId : String)
    (limit : ℕ) : List ChatMsg :=
  pySorted (fun a b => decide (a.createdAt ≤ b.createdAt))
    ((query_chat_desc table documentId limit).filter (fun m => m.userId == userId))


/-- An API Gateway response as built by `create_response` (lines 51-66):
status code and JSON body (headers are constant and elided). -/
structure HResp where
  status : ℕ
  body : JVal
  deriving DecidableEq

/-- An error response `create_response(status, {"error": msg})`. -/
def errorResp (status : ℕ) (msg : String) : HResp :=
  ⟨status, .obj [("error", .str msg)]⟩

/-- Python truthy-or for optional string fields, as in
`body.get('text') or body.get('concept', '')` — an absent key gives `None`
and the empty string is falsy. -/
def pyOrStr (a : Option PyStr) (b : PyStr) : PyStr :=
  match a with
  | some x => if x ≠ [] then x else b
  | none => b

/-- The handler `explain_concept` (lines 961-1020): resolve the text from
`text` or `concept`, reject empty text (400) and text longer than 5000
characters (400) before the model call; on success return the original
text, the level (default `eli5`), and the model's explanation.  The model
call is the external oracle `gpt` (`.error` models an upstream failure,
mapped to 500 by the enclosing handler). -/
def explain_concept (textF conceptF : Option PyStr) (levelF : Option String)
    (gpt : Except String String) : HResp :=
  let text := pyOrStr textF (conceptF.getD [])
  if text = [] then errorResp 400 "Text or concept is required"
  else if 5000 < text.length then errorResp 400 "Text too long"
  else
    match gpt with
    | .error e => errorResp 500 e
    | .ok explanation =>
      ⟨200, .obj [("originalText", .str (String.mk text)),
                  ("level", .str (levelF.getD "eli5")),
                  ("explanation", .str explanation)]⟩


/-- Document record as written by `save_document` (lines 269-284). -/
structure Doc where
  documentId : String
  userId : String
  fileName : PyStr
  s3Key : String
  fileSize : ℕ
  fileType : String
  extractedText : PyStr
  createdAt : String
  status : String

/-- Summary record as written by `save_summary` (lines 315-327). -/
structure SummaryRec where
  summaryId : String
  documentId : String
  userId : String
  content : String
  language : String
  createdAt : String

/-- One quiz attempt as appended by `save_quiz_attempt` (lines 409-425);
`percentage` is carried in tenths of a percent. -/
structure AttemptRec where
  attemptId : String
  answers : JObj
  score : ℕ
  totalQuestions : ℕ
  percentage : ℕ
  completedAt : String

/-- A write the handlers perform against the stores; the guard claims state
that no effect happens on the not-found and access-denied paths. -/
inductive Effect where
  | putSummary (s : SummaryRec)
  | putFlashcardSet (f : FlashcardSetRec)
  | putQuiz (q : QuizRec)
  | appendAttempt (quizId : String) (a : AttemptRec)
  | putChat (c : ChatMsg)
  | deleteS3 (key : String)
  | deleteDocument (documentId : String)

/-- JSON view of a summary record. -/
def summaryToJ (s : SummaryRec) : JVal :=
  .obj [("summaryId", .str s.summaryId), ("documentId", .str s.documentId),
        ("userId", .str s.userId), ("content", .str s.content),
        ("language", .str s.language), ("createdAt", .str s.createdAt)]

/-- JSON view of a flashcard-set record. -/
def flashcardSetToJ (f : FlashcardSetRec) : JVal :=
  .obj [("flashcardSetId", .str f.flashcardSetId), ("documentId", .str f.documentId),
        ("userId", .str f.userId), ("title", .str f.title), ("cards", f.cards),
        ("cardCount", .num f.cardCount), ("language", .str f.language),
        ("createdAt", .str f.createdAt)]

/-- JSON view of a quiz record (attempts always empty at creation time). -/
def quizToJ (q : QuizRec) : JVal :=
  .obj [("quizId", .str q.quizId), ("documentId", .str q.documentId),
        ("userId", .str q.userId), ("title", .str q.title), ("questions", q.questions),
        ("questionCount", .num q.questionCount), ("language", .str q.language),
        ("attempts", .arr (q.attempts.map .obj)), ("createdAt", .str q.createdAt)]

/-- JSON view of a chat-history item. -/
def chatToJ (c : ChatMsg) : JVal :=
  .obj [("chatId", .str c.chatId), ("documentId", .str c.documentId),
        ("userId", .str c.userId), ("userMessage", .str c.userMessage),
        ("assistantResponse", .str c.assistantResponse), ("createdAt", .num c.createdAt)]

/-- The document projection of `get_document` (lines 1069-1070): every field
except `extractedText`, plus the derived `hasText` flag. -/
def docProjJ (d : Doc) : JVal :=
  .obj [("documentId", .str d.documentId), ("userId", .str d.userId),
        ("fileName", .str (String.mk d.fileName)), ("s3Key", .str d.s3Key),
        ("fileSize", .num d.fileSize), ("fileType", .str d.fileType),
        ("createdAt", .str d.createdAt), ("status", .str d.status),
        ("hasText", .bool (d.extractedText ≠ []))]

/-- Python `x or None`-style JSON value for an optional record. -/
def optJ (f : α → JVal) : Option α → JVal
  | none => .null
  | some x => f x

/-- Python truthy-or chaining for an optional count field over naturals
(`body.get(k) or default`; 0 is falsy). -/
def pyOrNat (a : Option ℕ) (b : ℕ) : ℕ :=
  match a with
  | some x => if x ≠ 0 then x else b
  | none => b

/-- The handler `summarize_document` (lines 555-597): load the document,
404 when absent, 403 when the stored owner differs from the caller; then
obtain text (cached `extractedText`, else S3 fetch and re-extraction), 400
when empty; then one model call (`gpt`, the external oracle) and one summary
write.  Internal failures map to 500. -/
def summarize_document (userId documentId : String) (language : Option String)
    (docs : String → Option Doc) (s3 : String → Option FileBlob)
    (gpt : Except String String) (freshId now : String) : HResp × List Effect :=
  match docs documentId with
  | none => (errorResp 404 "Document not found", [])
  | some doc =>
    if doc.userId ≠ userId then (errorResp 403 "Access denied", [])
    else
      let fetched : Except String PyStr :=
        if doc.extractedText ≠ [] then .ok doc.extractedText
        else match s3 doc.s3Key with
          | none => .error "S3 get failed"
          | some blob =>
            match extract_text_from_file blob doc.fileName 100000 with
            | .error _ => .error "UnicodeDecodeError"
            | .ok t => .ok t
      match fetched with
      | .error e => (errorResp 500 e, [])
      | .ok text =>
        if text = [] then (errorResp 400 "No text content available", [])
        else match gpt with
          | .error e => (errorResp 500 e, [])
          | .ok content =>
            let summary : SummaryRec :=
              ⟨freshId, documentId, userId, content, language.getD "Vietnamese", now⟩
            (⟨200, .obj [("message", .str "Summary generated successfully"),
                         ("summary", summaryToJ summary)]⟩,
             [.putSummary summary])

/-- The handler `get_summary` (lines 599-619). -/
def get_summary (userId documentId : String) (docs : String → Option Doc)
    (summaries : String → Option SummaryRec) : HResp × List Effect :=
  match docs documentId with
  | none => (errorResp 404 "Document not found", [])
  | some doc =>
    if doc.userId ≠ userId then (errorResp 403 "Access denied", [])
    else match summaries documentId with
      | none => (errorResp 404 "Summary not found", [])
      | some sm => (⟨200, .obj [("summary", summaryToJ sm)]⟩, [])

/-- The handler `create_flashcards` (lines 625-671): guards, then cached
text (400 when empty), then one structured model call decoded to `cards`
(stored as-is) and one flashcard-set write.  The prompt only carries the
resolved count (`resolve_num_cards`); a non-measurable decode (`pyLen`
failure) maps to 500. -/
def create_flashcards (userId documentId : String) (title language : Option String)
    (docs : String → Option Doc) (gptJson : Except String JVal)
    (freshId now : String) : HResp × List Effect :=
  match docs documentId with
  | none => (errorResp 404 "Document not found", [])
  | some doc =>
    if doc.userId ≠ userId then (errorResp 403 "Access denied", [])
    else if doc.extractedText = [] then (errorResp 400 "No text content available", [])
    else match gptJson with
      | .error e => (errorResp 500 e, [])
      | .ok cards =>
        match pyLen cards with
        | .error e => (errorResp 500 e, [])
        | .ok n =>
          let fset : FlashcardSetRec :=
            ⟨freshId, documentId, userId, title.getD "Flashcard Set", cards, n,
             language.getD "Vietnamese", now⟩
          (⟨201, .obj [("message", .str "Flashcards created successfully"),
                       ("flashcardSet", flashcardSetToJ fset),
                       ("flashcards", cards)]⟩,
           [.putFlashcardSet fset])

/-- The handler `get_flashcards` (lines 673-690). -/
def get_flashcards (userId documentId : String) (docs : String → Option Doc)
    (fsetsByDoc : List FlashcardSetRec) : HResp × List Effect :=
  match docs documentId with
  | none => (errorResp 404 "Document not found", [])
  | some doc =>
    if doc.userId ≠ userId then (errorResp 403 "Access denied", [])
    else (⟨200, .obj [("flashcardSets", .arr (fsetsByDoc.map flashcardSetToJ))]⟩, [])

/-- The handler `create_quiz` (lines 709-760): guards, cached text, one
structured model call, trim to the resolved requested count
(`questionCount` before `numQuestions` before 10), save. -/
def create_quiz (userId documentId : String) (questionCount numQuestions : Option ℕ)
    (title language : Option String) (docs : String → Option Doc)
    (gptJson : Except String JVal) (freshId now : String) : HResp × List Effect :=
  match docs documentId with
  | none => (errorResp 404 "Document not found", [])
  | some doc =>
    if doc.userId ≠ userId then (errorResp 403 "Access denied", [])
    else if doc.extractedText = [] then (errorResp 400 "No text content available", [])
    else match gptJson with
      | .error e => (errorResp 500 e, [])
      | .ok decoded =>
        let numQ := pyOrNat questionCount (pyOrNat numQuestions 10)
        let questions := trim_questions decoded numQ
        match save_quiz freshId documentId userId (title.getD "Quiz") questions
            (language.getD "Vietnamese") now with
        | .error e => (errorResp 500 e, [])
        | .ok quiz =>
          (⟨201, .obj [("message", .str "Quiz created successfully"),
                       ("quiz", quizToJ quiz)]⟩,
           [.putQuiz quiz])

/-- The handler `get_quiz` (lines 762-793): the quiz entity is the guarded
target; correct answers and explanations are hidden by the
`questions_for_user` projection. -/
def get_quiz (userId quizId : String) (quizzes : String → Option QuizRec) :
    HResp × List Effect :=
  match quizzes quizId with
  | none => (errorResp 404 "Quiz not found", [])
  | some quiz =>
    if quiz.userId ≠ userId then (errorResp 403 "Access denied", [])
    else match quiz.questions with
      | .arr l =>
        match questions_for_user l with
        | .error e => (errorResp 500 e, [])
        | .ok out =>
          (⟨200, .obj [("quiz", .obj [("quizId", .str quiz.quizId),
                                      ("title", .str quiz.title),
                                      ("questions", .arr (out.map .obj)),
                                      ("questionCount", .num out.length)])]⟩, [])
      | _ => (errorResp 500 "TypeError", [])

/-- The handler `submit_quiz` (lines 795-855): the quiz entity is the
guarded target; grading (`submit_grade`) may raise (500), otherwise one
attempt is appended and the graded result returned (`percentage` carried in
tenths). -/
def submit_quiz (userId quizId : String) (answers : JObj)
    (quizzes : String → Option QuizRec) (freshId now : String) : HResp × List Effect :=
  match quizzes quizId with
  | none => (errorResp 404 "Quiz not found", [])
  | some quiz =>
    if quiz.userId ≠ userId then (errorResp 403 "Access denied", [])
    else match quiz.questions with
      | .arr l =>
        match submit_grade l answers with
        | .error e => (errorResp 500 e, [])
        | .ok g =>
          (⟨200, .obj [("message", .str "Quiz submitted"),
                       ("result", .obj [("score", .num g.score),
                                        ("totalQuestions", .num g.total),
                                        ("percentage", .num g.percentage),
                                        ("results", .arr (g.results.map .obj)),
                                        ("passed", .bool g.passed)])]⟩,
           [.appendAttempt quizId ⟨freshId, answers, g.score, g.total, g.percentage, now⟩])
      | _ => (errorResp 500 "TypeError", [])

/-- The handler `chat_with_document` (lines 886-932): the empty-question
400 precedes the document load; then guards, cached text (400 when empty),
one model call, one chat write. -/
def chat_with_document (userId documentId : String) (question message : Option PyStr)
    (_language : Option String) (docs : String → Option Doc)
    (gpt : Except String String) (freshId : String) (nowT : ℕ) : HResp × List Effect :=
  let q := pyOrStr question (message.getD [])
  if q = [] then (errorResp 400 "Question/message is required", [])
  else match docs documentId with
    | none => (errorResp 404 "Document not found", [])
    | some doc =>
      if doc.userId ≠ userId then (errorResp 403 "Access denied", [])
      else if doc.extractedText = [] then (errorResp 400 "No text content available", [])
      else match gpt with
        | .error e => (errorResp 500 e, [])
        | .ok answer =>
          let chat : ChatMsg := ⟨freshId, documentId, userId, String.mk q, answer, nowT⟩
          (⟨200, .obj [("question", .str (String.mk q)), ("answer", .str answer),
                       ("chatId", .str freshId)]⟩,
           [.putChat chat])

/-- The handler `get_chat_history` (lines 934-955). -/
def get_chat_history (userId documentId : String) (docs : String → Option Doc)
    (chatTable : List ChatMsg) : HResp × List Effect :=
  match docs documentId with
  | none => (errorResp 404 "Document not found", [])
  | some doc =>
    if doc.userId ≠ userId then (errorResp 403 "Access denied", [])
    else
      let history := get_chat_history_by_document chatTable documentId userId 20
      (⟨200, .obj [("chatHistory", .arr (history.map chatToJ)),
                   ("count", .num history.length)]⟩, [])

/-- The handler `get_document` (lines 1052-1079). -/
def get_document (userId documentId : String) (docs : String → Option Doc)
    (summaries : String → Option SummaryRec) (fsetsByDoc : List FlashcardSetRec) :
    HResp × List Effect :=
  match docs documentId with
  | none => (errorResp 404 "Document not found", [])
  | some doc =>
    if doc.userId ≠ userId then (errorResp 403 "Access denied", [])
    else
      (⟨200, .obj [("document", docProjJ doc),
                   ("summary", optJ summaryToJ (summaries documentId)),
                   ("flashcardSets", .arr (fsetsByDoc.map flashcardSetToJ))]⟩, [])

/-- The handler `delete_document` (lines 1081-1102) with
`delete_document_by_id` (lines 302-313): guards, then best-effort S3 blob
delete and authoritative metadata delete. -/
def delete_document (userId documentId : String) (docs : String → Option Doc) :
    HResp × List Effect :=
  match docs documentId with
  | none => (errorResp 404 "Document not found", [])
  | some doc =>
    if doc.userId ≠ userId then (errorResp 403 "Access denied", [])
    else
      (⟨200, .obj [("message", .str "Document deleted successfully"),
                   ("documentId", .str documentId)]⟩,
       [.deleteS3 doc.s3Key, .deleteDocument documentId])

-- ==== THEOREMS ====

theorem lookup_getD_beq_num (o : Option JVal) (c : ℤ) :
    ((o.getD .null) == JVal.num c) = (o == some (JVal.num c)) := by
  cases o <;> rfl

theorem getD_map_range {α : Type _} (g : ℕ → α) (n i : ℕ) (h : i < n) (d : α) :
    (((List.range n).map g).getD i d) = g i := by
  rw [List.getD_eq_getElem _ _ (by simpa using h)]
  simp

theorem gradeLoop_eq (answers : JObj) :
    ∀ (qs : List JVal) (k : ℕ) (corr : ℕ → ℤ),
    (∀ i, i < qs.length →
      jIndex (qs.getD i .null) "correct_answer" = Except.ok (.num (corr (k + i)))) →
    gradeLoop answers qs k = .ok
      ((List.range qs.length).countP
          (fun i => ((answers.lookup (toString (k + i))).getD .null) == JVal.num (corr (k + i))),
       (List.range qs.length).map
          (fun i => gradeDetail (k + i) ((answers.lookup (toString (k + i))).getD .null)
            (.num (corr (k + i)))
            (((answers.lookup (toString (k + i))).getD .null) == JVal.num (corr (k + i)))
            (qs.getD i .null)))
  | [], k, corr, hq => by simp [gradeLoop]
  | q :: qs, k, corr, hq => by
    have h0 := hq 0 (by simp)
    simp only [List.getD_cons_zero, Nat.add_zero] at h0
    have ih := gradeLoop_eq answers qs (k + 1) corr (fun i h => by
      have h3 := hq (i + 1) (by simp only [List.length_cons]; omega)
      rw [List.getD_cons_succ] at h3
      have h4 : k + (i + 1) = k + 1 + i := by omega
      rw [h4] at h3
      exact h3)
    simp only [gradeLoop, h0, ih, Except.bind, bind]
    simp only [List.length_cons]
    rw [List.range_succ_eq_map]
    simp only [List.countP_cons, List.countP_map, List.map_cons, List.map_map,
      Except.ok.injEq, Prod.mk.injEq, Function.comp, Nat.add_zero, List.getD_cons_zero,
      List.getD_cons_succ, Nat.add_succ, Nat.succ_add]
    constructor
    · exact Nat.add_comm _ _
    · rfl

/-- C1: quiz grading is a pure function of the stored questions and the
submitted answers map.  For a quiz whose stored questions each carry a
`correct_answer` integer field (the stored correct index), grading succeeds
and: the score is the number of indices `i` whose submitted answer at key
`str(i)` is present and equals the stored correct index (a missing answer
never matches); the percentage (in tenths) is `round(score/n*100, 1)` for
`n > 0` and `0` for `n = 0` (`pctTenths`); the result is passed exactly when
the percentage is at least 60; and the per-question detail lists the
submitted answer, stored correct answer, match boolean, and stored
explanation. -/
theorem C1_quiz_grading (questions : List JVal) (answers : JObj) (corr : ℕ → ℤ)
    (hq : ∀ i, i < questions.length →
      jIndex (questions.getD i .null) "correct_answer" = Except.ok (.num (corr i))) :
    ∃ out : GradeOut,
      submit_grade questions answers = .ok out ∧
      out.score = (List.range questions.length).countP
        (fun i => answers.lookup (toString i) == some (JVal.num (corr i))) ∧
      out.total = questions.length ∧
      out.percentage = pctTenths out.score out.total ∧
      (out.passed = true ↔ 600 ≤ out.percentage) ∧
      out.results.length = questions.length ∧
      (∀ i, i < questions.length →
        out.results.getD i [] = gradeDetail i ((answers.lookup (toString i)).getD .null)
          (.num (corr i)) (answers.lookup (toString i) == some (JVal.num (corr i)))
          (questions.getD i .null)) := by
  have hl := gradeLoop_eq answers questions 0 corr (fun i h => by simpa using hq i h)
  simp only [Nat.zero_add] at hl
  have hs : submit_grade questions answers = .ok
      ⟨(List.range questions.length).countP
          (fun i => ((answers.lookup (toString i)).getD .null) == JVal.num (corr i)),
        questions.length,
        pctTenths ((List.range questions.length).countP
          (fun i => ((answers.lookup (toString i)).getD .null) == JVal.num (corr i)))
          questions.length,
        decide (600 ≤ pctTenths ((List.range questions.length).countP
          (fun i => ((answers.lookup (toString i)).getD .null) == JVal.num (corr i)))
          questions.length),
        (List.range questions.length).map
          (fun i => gradeDetail i ((answers.lookup (toString i)).getD .null)
            (.num (corr i))
            (((answers.lookup (toString i)).getD .null) == JVal.num (corr i))
            (questions.getD i .null))⟩ := by
    unfold submit_grade
    rw [hl]
    rfl
  refine ⟨_, hs, ?_, rfl, rfl, by simp, by simp, ?_⟩
  · simp only [lookup_getD_beq_num]
  · intro i h
    simp only
    rw [getD_map_range _ _ _ h]
    rw [lookup_getD_beq_num]

theorem C1_quiz_grading_witness :
    ∃ out : GradeOut,
      submit_grade [sampleQ 1, sampleQ 0, sampleQ 2]
        [("0", .num 1), ("1", .num 1), ("2", .num 2)] = .ok out ∧
      out.score = 2 ∧ out.total = 3 ∧ out.percentage = 667 ∧ out.passed = true := by
  obtain ⟨out, h1, h2, h3, h4, h5, h6, h7⟩ :=
    C1_quiz_grading [sampleQ 1, sampleQ 0, sampleQ 2]
      [("0", .num 1), ("1", .num 1), ("2", .num 2)]
      (fun i => ([1, 0, 2] : List ℤ).getD i 0)
      (by intro i h; simp only [List.length_cons, List.length_nil] at h; interval_cases i <;> rfl)
  refine ⟨out, h1, ?_, h3, ?_, ?_⟩
  · rw [h2]; rfl
  · rw [h4, h2, h3]; rfl
  · apply h5.mpr
    rw [h4, h2, h3]
    decide

theorem pyJoin_length (sep : PyStr) : ∀ parts : List PyStr,
    (pyJoin sep parts).length = (parts.map List.length).sum + sep.length * (parts.length - 1)
  | [] => by simp [pyJoin]
  | [x] => by simp [pyJoin]
  | x :: y :: zs => by
    simp only [pyJoin, List.length_append, pyJoin_length sep (y :: zs), List.map_cons,
      List.sum_cons, List.length_cons, Nat.add_sub_cancel, Nat.mul_succ]
    omega

theorem pdfLoop_sum (maxChars : ℕ) : ∀ (ps : List PyStr) (total : ℕ), total ≤ maxChars →
    total + ((pdfLoop maxChars ps total).map List.length).sum ≤ maxChars
  | [], total, h => by simpa [pdfLoop] using h
  | t :: ps, total, h => by
    by_cases hc : maxChars < total + t.length
    · simp only [pdfLoop, if_pos hc, List.map_cons, List.map_nil, List.sum_cons,
        List.sum_nil, List.length_take]
      omega
    · have ih := pdfLoop_sum maxChars ps (total + t.length) (by omega)
      simp only [pdfLoop, if_neg hc, List.map_cons, List.sum_cons]
      omega

theorem pdfLoop_count (maxChars : ℕ) : ∀ (ps : List PyStr) (total : ℕ),
    (pdfLoop maxChars ps total).length ≤ ps.length
  | [], _ => by simp [pdfLoop]
  | t :: ps, total => by
    by_cases hc : maxChars < total + t.length
    · simp [pdfLoop, hc]
    · have ih := pdfLoop_count maxChars ps (total + t.length)
      simp only [pdfLoop, if_neg hc, List.length_cons]
      omega

/-- C2 counterexample: the claim that every supported extension yields output
of length at most `maxChars` is false for PDF input — the page loop counts
only page characters, not the newline separators inserted by the join, so a
three-page PDF within budget produces 5 characters against `maxChars = 3`. -/
theorem C2_counterexample :
    extract_text_from_file ⟨some [['a'], ['b'], ['c']], none, none⟩ ("x.pdf".data) 3 =
      .ok ['a', '\n', 'b', '\n', 'c'] ∧
    ¬ (['a', '\n', 'b', '\n', 'c'] : PyStr).length ≤ 3 := by
  exact ⟨rfl, by decide⟩

/-- C2 amended: text extraction dispatches case-insensitively on the file
name's extension; unknown extensions yield empty text; `txt`/`text` and
`docx`/`doc` outputs have length at most `maxChars`; for PDF input the page
fragments are joined with newline separators and the loop stops, truncating
mid-page, the moment the cumulative page-character count (which excludes the
separators) would exceed `maxChars` — so the fragment lengths sum to at most
`maxChars` and the output length is at most `maxChars` plus one per page
boundary, not `maxChars` itself. -/
theorem C2_extract_truncation (blob : FileBlob) (fileName : PyStr) (maxChars : ℕ) :
    (pyExt fileName ∉ ["pdf".data, "docx".data, "doc".data, "txt".data, "text".data] →
      extract_text_from_file blob fileName maxChars = .ok []) ∧
    ((pyExt fileName = "txt".data ∨ pyExt fileName = "text".data) →
      ∀ t, extract_text_from_file blob fileName maxChars = .ok t → t.length ≤ maxChars) ∧
    ((pyExt fileName = "docx".data ∨ pyExt fileName = "doc".data) →
      ∀ t, extract_text_from_file blob fileName maxChars = .ok t → t.length ≤ maxChars) ∧
    (pyExt fileName = "pdf".data → ∀ pages, blob.pdfPages = some pages →
      extract_text_from_file blob fileName maxChars =
        .ok (pyJoin ['\n'] (pdfLoop maxChars pages 0)) ∧
      ((pdfLoop maxChars pages 0).map List.length).sum ≤ maxChars ∧
      (pyJoin ['\n'] (pdfLoop maxChars pages 0)).length ≤
        maxChars + ((pdfLoop maxChars pages 0).length - 1) ∧
      (pdfLoop maxChars pages 0).length ≤ pages.length) := by
  refine ⟨?_, ?_, ?_, ?_⟩
  · intro h
    simp only [List.mem_cons, List.not_mem_nil, or_false, not_or] at h
    obtain ⟨h1, h2, h3, h4, h5⟩ := h
    simp [extract_text_from_file, h1, h2, h3, h4, h5]
  · intro h t ht
    have h1 : pyExt fileName ≠ "pdf".data := by
      rcases h with h | h <;> rw [h] <;> decide
    have h2 : ¬(pyExt fileName = "docx".data ∨ pyExt fileName = "doc".data) := by
      rcases h with h | h <;> rw [h] <;> decide
    cases hu : blob.utf8Text with
    | none =>
      simp only [extract_text_from_file, if_neg h1, if_neg h2, if_pos h, hu] at ht
      exact Except.noConfusion ht
    | some u =>
      simp only [extract_text_from_file, if_neg h1, if_neg h2, if_pos h, hu,
        Except.ok.injEq] at ht
      subst ht
      by_cases hc : maxChars < u.length
      · rw [if_pos hc]
        simp [List.length_take]
      · rw [if_neg hc]
        omega
  · intro h t ht
    have h1 : pyExt fileName ≠ "pdf".data := by
      rcases h with h | h <;> rw [h] <;> decide
    simp only [extract_text_from_file, if_neg h1, if_pos h, Except.ok.injEq] at ht
    subst ht
    cases hd : blob.docxParas with
    | none => simp [extract_text_from_docx, hd]
    | some ps =>
      simp only [extract_text_from_docx, hd]
      by_cases hc : maxChars < (pyJoin ['\n'] (ps.filter (fun p => !(pyStrip p).isEmpty))).length
      · rw [if_pos hc]
        simp [List.length_take]
      · rw [if_neg hc]
        omega
  · intro h pages hp
    have he : extract_text_from_file blob fileName maxChars =
        .ok (pyJoin ['\n'] (pdfLoop maxChars pages 0)) := by
      simp [extract_text_from_file, h, extract_text_from_pdf, hp]
    have hsum := pdfLoop_sum maxChars pages 0 (Nat.zero_le _)
    have hcount := pdfLoop_count maxChars pages 0
    refine ⟨he, by omega, ?_, hcount⟩
    rw [pyJoin_length]
    simp only [List.length_cons, List.length_nil]
    omega

theorem C2_extract_truncation_witness :
    extract_text_from_file ⟨some [['a', 'b'], ['c']], none, none⟩ ("f.PDF".data) 2 =
      .ok ['a', 'b', '\n'] ∧
    ((pdfLoop 2 [['a', 'b'], ['c']] 0).map List.length).sum ≤ 2 := by
  have h := (C2_extract_truncation ⟨some [['a', 'b'], ['c']], none, none⟩
      ("f.PDF".data) 2).2.2.2 (by decide) [['a', 'b'], ['c']] rfl
  exact ⟨by rw [h.1]; rfl, h.2.1⟩

/-- C3: for a decoded model output that is a list of `M` question objects and
a requested count `N`, the stored quiz holds exactly the first `N` questions
when `M > N` (excess silently dropped) and exactly the `M` decoded questions
when `M ≤ N` (never padded); the stored `questionCount` always equals the
length of the stored questions sequence. -/
theorem C3_quiz_trim (decoded : List JVal) (numQuestions : ℕ) :
    ∃ l : List JVal,
      trim_questions (.arr decoded) numQuestions = .arr l ∧
      (numQuestions < decoded.length → l = decoded.take numQuestions ∧ l.length = numQuestions) ∧
      (decoded.length ≤ numQuestions → l = decoded) ∧
      (∀ quizId documentId userId title language createdAt : String,
        ∃ q : QuizRec,
          save_quiz quizId documentId userId title (.arr l) language createdAt = .ok q ∧
          q.questions = .arr l ∧ q.questionCount = l.length) := by
  by_cases hc : numQuestions < decoded.length
  · refine ⟨decoded.take numQuestions, by simp [trim_questions, hc], fun _ => ⟨rfl, ?_⟩,
      fun h => absurd h (by omega), fun a b c d e f => ⟨_, rfl, rfl, rfl⟩⟩
    simp [List.length_take]
    omega
  · exact ⟨decoded, by simp [trim_questions, hc], fun h => absurd h hc,
      fun _ => rfl, fun a b c d e f => ⟨_, rfl, rfl, rfl⟩⟩

theorem C3_quiz_trim_witness :
    (∃ l : List JVal, trim_questions (.arr [promptShapedQ 0, promptShapedQ 1]) 1 = .arr l ∧
      l = [promptShapedQ 0] ∧ l.length = 1) ∧
    (∃ q : QuizRec, save_quiz "qz" "doc" "u" "t" (.arr [promptShapedQ 0]) "vi" "now" = .ok q ∧
      q.questionCount = 1) := by
  obtain ⟨l, h1, h2, h3, h4⟩ := C3_quiz_trim [promptShapedQ 0, promptShapedQ 1] 1
  obtain ⟨he, hlen⟩ := h2 (by decide)
  have he2 : l = [promptShapedQ 0] := by rw [he]; rfl
  subst he2
  obtain ⟨q, hq1, hq2, hq3⟩ := h4 "qz" "doc" "u" "t" "vi" "now"
  exact ⟨⟨_, h1, rfl, rfl⟩, ⟨q, hq1, by simp [hq3]⟩⟩

/-- C9 (code bug evidence): a question in the exact shape quiz creation
stores — the `QUIZ_PROMPT` model-output shape, whose correct index is under
the key `correctAnswer` — passes through the `create_quiz` trim step
unchanged, yet grading in `submit_quiz` reads `question['correct_answer']`
and therefore raises `KeyError('correct_answer')` (surfaced as a 500
response) instead of producing the graded result the spec promises. -/
theorem C9_quiz_key_mismatch :
    trim_questions (.arr [promptShapedQ 0]) 5 = .arr [promptShapedQ 0] ∧
    (∃ q : QuizRec, save_quiz "qz" "doc" "u" "t" (.arr [promptShapedQ 0]) "vi" "now" = .ok q ∧
      q.questions = .arr [promptShapedQ 0]) ∧
    submit_grade [promptShapedQ 0] [("0", .num 0)] = .error "correct_answer" ∧
    submit_quiz "u" "qz" [("0", .num 0)]
      (fun _ => some ⟨"qz", "doc", "u", "t", .arr [promptShapedQ 0], 1, "vi", [], "now"⟩)
      "att" "now" = (errorResp 500 "correct_answer", []) := by
  exact ⟨rfl, ⟨_, rfl, rfl⟩, rfl, rfl⟩

/-- C8 counterexample: the count requested from the model is not the maximum
of the client-supplied count and the default 20 — a client-supplied count of
5 is used as-is (the default applies only when the field is absent or
falsy). -/
theorem C8_counterexample :
    resolve_num_cards (some 5) none = 5 ∧ ¬ resolve_num_cards (some 5) none = max 5 20 := by
  decide

/-- C8 amended: the count requested from the model is the client-supplied
`count` when present and nonzero, else `numCards` when present and nonzero,
else the default 20 (Python truthy-or chaining, not a maximum); the decoded
model output is stored as-is with no trimming or padding, and the stored
`cardCount` equals the length of the stored cards sequence. -/
theorem C8_flashcards (count numCards : Option Int) (decoded : List JVal) :
    (∀ c, count = some c → c ≠ 0 → resolve_num_cards count numCards = c) ∧
    ((count = none ∨ count = some 0) →
      ∀ m, numCards = some m → m ≠ 0 → resolve_num_cards count numCards = m) ∧
    ((count = none ∨ count = some 0) → (numCards = none ∨ numCards = some 0) →
      resolve_num_cards count numCards = 20) ∧
    (∀ flashcardSetId documentId userId title language createdAt : String,
      ∃ f : FlashcardSetRec,
        save_flashcard_set flashcardSetId documentId userId title (.arr decoded)
          language createdAt = .ok f ∧
        f.cards = .arr decoded ∧ f.cardCount = decoded.length) := by
  refine ⟨?_, ?_, ?_, fun a b c d e g => ⟨_, rfl, rfl, rfl⟩⟩
  · intro c hc hne
    subst hc
    simp [resolve_num_cards, pyOrInt, hne]
  · intro h m hm hne
    subst hm
    rcases h with h | h <;> subst h <;> simp [resolve_num_cards, pyOrInt, hne]
  · intro h h2
    rcases h with h | h <;> rcases h2 with h2 | h2 <;> subst h <;> subst h2 <;>
      simp [resolve_num_cards, pyOrInt]

theorem C8_flashcards_witness :
    resolve_num_cards none (some 7) = 7 ∧
    (∃ f : FlashcardSetRec,
      save_flashcard_set "fc" "doc" "u" "t" (.arr [.obj [("front", .str "f"), ("back", .str "b")]])
        "vi" "now" = .ok f ∧ f.cardCount = 1) := by
  obtain ⟨h1, h2, h3, h4⟩ :=
    C8_flashcards none (some 7) [.obj [("front", .str "f"), ("back", .str "b")]]
  obtain ⟨f, hf1, hf2, hf3⟩ := h4 "fc" "doc" "u" "t" "vi" "now"
  exact ⟨h2 (Or.inl rfl) 7 rfl (by decide), ⟨f, hf1, by simp [hf3]⟩⟩

theorem questions_for_user_shape : ∀ (qs : List JVal) (out : List JObj),
    questions_for_user qs = .ok out →
    ∀ o ∈ out, ∃ a b, o = [("question", a), ("options", b)]
  | [], out, h => by
    simp only [questions_for_user, Except.ok.injEq] at h
    subst h
    intro o ho
    exact absurd ho (List.not_mem_nil o)
  | q :: qs, out, h => by
    simp only [questions_for_user] at h
    cases h1 : jIndex q "question" with
    | error e => simp [h1, Except.bind, bind] at h
    | ok a =>
      cases h2 : jIndex q "options" with
      | error e => simp [h1, h2, Except.bind, bind] at h
      | ok b =>
        cases h3 : questions_for_user qs with
        | error e => simp [h1, h2, h3, Except.bind, bind] at h
        | ok rest =>
          simp only [h1, h2, h3, Except.bind, bind, Except.ok.injEq] at h
          subst h
          intro o ho
          rcases List.mem_cons.mp ho with rfl | ho
          · exact ⟨a, b, rfl⟩
          · exact questions_for_user_shape qs rest h3 o ho

theorem gradeLoop_results_shape (answers : JObj) :
    ∀ (qs : List JVal) (k : ℕ) (pr : ℕ × List JObj),
    gradeLoop answers qs k = .ok pr →
    ∀ d ∈ pr.2, ∃ idx ua ca isC q, d = gradeDetail idx ua ca isC q
  | [], k, pr, h => by
    simp only [gradeLoop, Except.ok.injEq] at h
    subst h
    intro d hd
    exact absurd hd (List.not_mem_nil d)
  | q :: qs, k, pr, h => by
    simp only [gradeLoop] at h
    cases h1 : jIndex q "correct_answer" with
    | error e => simp [h1, Except.bind, bind] at h
    | ok ca =>
      cases h2 : gradeLoop answers qs (k + 1) with
      | error e => simp [h1, h2, Except.bind, bind] at h
      | ok pr2 =>
        simp only [h1, h2, Except.bind, bind, Except.ok.injEq] at h
        subst h
        intro d hd
        rcases List.mem_cons.mp hd with rfl | hd
        · exact ⟨k, _, ca, _, q, rfl⟩
        · exact gradeLoop_results_shape answers qs (k + 1) pr2 h2 d hd

/-- C4: retrieving a quiz for taking (`get_quiz`) returns questions holding
only the keys `question` and `options` — never a `correct_answer` or
`explanation` entry — while every per-question detail in a successful
submission result (`submit_quiz`) carries both a `correct_answer` and an
`explanation` entry. -/
theorem C4_redaction (questions : List JVal) (answers : JObj) :
    (∀ out, questions_for_user questions = .ok out →
      ∀ o ∈ out, o.map Prod.fst = ["question", "options"] ∧
        o.lookup "correct_answer" = none ∧ o.lookup "explanation" = none) ∧
    (∀ g, submit_grade questions answers = .ok g →
      ∀ d ∈ g.results, (∃ v, d.lookup "correct_answer" = some v) ∧
        ∃ v, d.lookup "explanation" = some v) := by
  constructor
  · intro out hout o ho
    obtain ⟨a, b, rfl⟩ := questions_for_user_shape questions out hout o ho
    exact ⟨rfl, rfl, rfl⟩
  · intro g hg d hd
    have hloop : ∃ pr, gradeLoop answers questions 0 = .ok pr ∧ g.results = pr.2 := by
      unfold submit_grade at hg
      cases hr : gradeLoop answers questions 0 with
      | error e => rw [hr] at hg; exact Except.noConfusion hg
      | ok pr =>
        cases pr with
        | mk c res =>
          rw [hr] at hg
          simp only [Except.bind, bind, Except.ok.injEq] at hg
          exact ⟨(c, res), rfl, by rw [← hg]⟩
    obtain ⟨pr, hpr, hres⟩ := hloop
    rw [hres] at hd
    obtain ⟨idx, ua, ca, isC, q, rfl⟩ :=
      gradeLoop_results_shape answers questions 0 pr hpr d hd
    exact ⟨⟨ca, rfl⟩, ⟨jGetD q "explanation" (.str ""), rfl⟩⟩

theorem C4_redaction_witness :
    questions_for_user [sampleQ 1] =
      .ok [[("question", .str "q"),
            ("options", .arr [.str "a", .str "b", .str "c", .str "d"])]] ∧
    ([("question", JVal.str "q"),
      ("options", JVal.arr [.str "a", .str "b", .str "c", .str "d"])] : JObj).lookup
        "correct_answer" = none ∧
    submit_grade [sampleQ 1] [("0", .num 1)] =
      .ok ⟨1, 1, 1000, true, [gradeDetail 0 (.num 1) (.num 1) true (sampleQ 1)]⟩ ∧
    ∀ d ∈ [gradeDetail 0 (.num 1) (.num 1) true (sampleQ 1)],
      ∃ v, d.lookup "correct_answer" = some v := by
  have h1 := (C4_redaction [sampleQ 1] [("0", .num 1)]).1
      [[("question", .str "q"), ("options", .arr [.str "a", .str "b", .str "c", .str "d"])]] rfl
      [("question", .str "q"), ("options", .arr [.str "a", .str "b", .str "c", .str "d"])]
      (List.mem_singleton.mpr rfl)
  have h2 := (C4_redaction [sampleQ 1] [("0", .num 1)]).2
      ⟨1, 1, 1000, true, [gradeDetail 0 (.num 1) (.num 1) true (sampleQ 1)]⟩ rfl
  exact ⟨rfl, h1.2.1, rfl, fun d hd => (h2 d hd).1⟩

theorem dropWhile_true_append (p : Char → Bool) :
    ∀ (ws l : PyStr), (∀ c ∈ ws, p c = true) →
    List.dropWhile p (ws ++ l) = List.dropWhile p l
  | [], l, _ => rfl
  | a :: ws, l, h => by
    rw [List.cons_append, List.dropWhile_cons_of_pos (h a (by simp))]
    exact dropWhile_true_append p ws l (fun c hc => h c (by simp [hc]))

theorem dropWhile_head_false (p : Char → Bool) :
    ∀ (l : PyStr) (a : Char) (t : PyStr), List.dropWhile p l = a :: t → p a = false
  | [], a, t, h => by simp [List.dropWhile] at h
  | b :: r, a, t, h => by
    by_cases hb : p b
    · rw [List.dropWhile_cons_of_pos hb] at h
      exact dropWhile_head_false p r a t h
    · rw [List.dropWhile_cons_of_neg hb] at h
      cases h
      simpa using hb

theorem pyRstrip_append_ws (l ws : PyStr) (h : ∀ c ∈ ws, c.isWhitespace = true) :
    pyRstrip (l ++ ws) = pyRstrip l := by
  unfold pyRstrip
  rw [List.reverse_append, dropWhile_true_append _ _ _ (fun c hc => h c (List.mem_reverse.mp hc))]

theorem pyLstrip_ws_append (ws l : PyStr) (h : ∀ c ∈ ws, c.isWhitespace = true) :
    pyLstrip (ws ++ l) = pyLstrip l := by
  unfold pyLstrip
  exact dropWhile_true_append _ _ _ h

theorem pyStrip_ws_append (ws l : PyStr) (h : ∀ c ∈ ws, c.isWhitespace = true) :
    pyStrip (ws ++ l) = pyStrip l := by
  unfold pyStrip
  rw [pyLstrip_ws_append ws l h]

theorem pyStrip_append_ws (l ws : PyStr) (h : ∀ c ∈ ws, c.isWhitespace = true) :
    pyStrip (l ++ ws) = pyStrip l := by
  unfold pyStrip pyLstrip
  rw [List.dropWhile_append]
  by_cases hd : (List.dropWhile Char.isWhitespace l).isEmpty
  · rw [if_pos hd]
    have hws : List.dropWhile Char.isWhitespace ws = [] :=
      List.dropWhile_eq_nil_iff.mpr h
    rw [hws, List.isEmpty_iff.mp hd]
  · rw [if_neg hd]
    exact pyRstrip_append_ws _ _ h

theorem pyLstrip_cons_false (a : Char) (t : PyStr) (h : a.isWhitespace = false) :
    pyLstrip (a :: t) = a :: t := by
  unfold pyLstrip
  exact List.dropWhile_cons_of_neg (by simp [h])

theorem pyRstrip_head (a : Char) (t : PyStr) :
    pyRstrip (a :: t) = [] ∨ ∃ u, pyRstrip (a :: t) = a :: u := by
  unfold pyRstrip
  rw [List.reverse_cons, List.dropWhile_append]
  by_cases hd : (List.dropWhile Char.isWhitespace t.reverse).isEmpty
  · rw [if_pos hd]
    by_cases ha : a.isWhitespace
    · left
      simp [List.dropWhile_cons_of_pos (by simpa using ha)]
    · right
      refine ⟨[], ?_⟩
      simp [List.dropWhile_cons_of_neg (by simpa using ha)]
  · rw [if_neg hd]
    right
    exact ⟨(List.dropWhile Char.isWhitespace t.reverse).reverse, by simp⟩

theorem dropWhile_idem (p : Char → Bool) (l : PyStr) :
    List.dropWhile p (List.dropWhile p l) = List.dropWhile p l := by
  cases h : List.dropWhile p l with
  | nil => rfl
  | cons a t =>
    exact List.dropWhile_cons_of_neg (by simp [dropWhile_head_false p l a t h])

theorem pyRstrip_idem (l : PyStr) : pyRstrip (pyRstrip l) = pyRstrip l := by
  unfold pyRstrip
  rw [List.reverse_reverse, dropWhile_idem]

theorem pyLstrip_pyRstrip_pyLstrip (l : PyStr) :
    pyLstrip (pyRstrip (pyLstrip l)) = pyRstrip (pyLstrip l) := by
  cases hx : pyLstrip l with
  | nil => rfl
  | cons a t =>
    have ha : a.isWhitespace = false := dropWhile_head_false _ l a t hx
    rcases pyRstrip_head a t with h | ⟨u, h⟩
    · rw [h]; rfl
    · rw [h]
      exact pyLstrip_cons_false a u ha

theorem pyStrip_idem (l : PyStr) : pyStrip (pyStrip l) = pyStrip l := by
  show pyRstrip (pyLstrip (pyRstrip (pyLstrip l))) = pyRstrip (pyLstrip l)
  rw [pyLstrip_pyRstrip_pyLstrip, pyRstrip_idem]

theorem pyStartsWith_append (p rest : PyStr) : pyStartsWith (p ++ rest) p = true := by
  unfold pyStartsWith
  rw [List.take_left]
  exact beq_self_eq_true p

theorem pyEndsWith_append_fbare (X : PyStr) : pyEndsWith (X ++ fbare) fbare = true := by
  unfold pyEndsWith
  rw [List.reverse_append, ← List.length_reverse fbare, List.take_left]
  exact beq_self_eq_true _

theorem pyLstrip_fjson_append (rest : PyStr) : pyLstrip (fjson ++ rest) = fjson ++ rest := by
  rw [show fjson = btick :: "``json".data from by decide, List.cons_append]
  exact pyLstrip_cons_false _ _ (by decide)

theorem pyLstrip_fbare_append (rest : PyStr) : pyLstrip (fbare ++ rest) = fbare ++ rest := by
  rw [show fbare = btick :: "``".data from by decide, List.cons_append]
  exact pyLstrip_cons_false _ _ (by decide)

theorem pyRstrip_append_fbare (X : PyStr) : pyRstrip (X ++ fbare) = X ++ fbare := by
  have h : List.dropWhile Char.isWhitespace (fbare.reverse ++ X.reverse) =
      fbare.reverse ++ X.reverse := by
    rw [show fbare.reverse = [btick, btick, btick] from by decide]
    simp only [List.cons_append]
    exact List.dropWhile_cons_of_neg (by decide)
  unfold pyRstrip
  rw [List.reverse_append, h, List.reverse_append, List.reverse_reverse, List.reverse_reverse]

theorem pyStrip_fenced (core : PyStr) :
    pyStrip ((fjson ++ core) ++ fbare) = (fjson ++ core) ++ fbare := by
  unfold pyStrip
  rw [List.append_assoc, pyLstrip_fjson_append, ← List.append_assoc, pyRstrip_append_fbare]

theorem pyStrip_fenced_bare (core : PyStr) :
    pyStrip ((fbare ++ core) ++ fbare) = (fbare ++ core) ++ fbare := by
  unfold pyStrip
  rw [List.append_assoc, pyLstrip_fbare_append, ← List.append_assoc, pyRstrip_append_fbare]

theorem take_len_sub_append_fbare (X : PyStr) :
    (X ++ fbare).take ((X ++ fbare).length - 3) = X := by
  have h : (X ++ fbare).length - 3 = X.length := by
    rw [List.length_append, show fbare.length = 3 from by decide]
    omega
  rw [h, List.take_left]

theorem pyStartsWith_fjson_fbare (s : PyStr) (h : pyStartsWith s fjson = true) :
    pyStartsWith s fbare = true := by
  unfold pyStartsWith at h ⊢
  have he : s.take fjson.length = fjson := eq_of_beq h
  have h3 : s.take fbare.length = fbare := by
    have : (s.take fjson.length).take fbare.length = fbare := by
      rw [he]
      decide
    rwa [List.take_take, show fbare.length ⊓ fjson.length = fbare.length from by decide] at this
  rw [h3]
  exact beq_self_eq_true _

theorem pyStartsWith_bare_not_fjson (rest : PyStr) :
    pyStartsWith (fbare ++ '\n' :: rest) fjson = false := by
  unfold pyStartsWith
  rw [beq_eq_false_iff_ne]
  intro h
  rw [show fbare = [btick, btick, btick] from by decide,
      show fjson = [btick, btick, btick, 'j', 's', 'o', 'n'] from by decide] at h
  simp only [List.cons_append, List.nil_append, List.length_cons, List.length_nil,
    List.take_succ_cons] at h
  injection h with h1 h
  injection h with h2 h
  injection h with h3 h
  injection h with h4 h
  exact absurd h4 (by decide)

theorem strip_code_fences_congr (s t : PyStr) (h : pyStrip s = pyStrip t) :
    strip_code_fences s = strip_code_fences t := by
  simp only [strip_code_fences, h]

theorem strip_code_fences_json (core : PyStr) :
    strip_code_fences ((fjson ++ core) ++ fbare) = pyStrip core := by
  simp only [strip_code_fences]
  rw [pyStrip_fenced, List.append_assoc, if_pos (pyStartsWith_append fjson (core ++ fbare)),
    show (7 : ℕ) = fjson.length from rfl, List.drop_left,
    if_pos (pyEndsWith_append_fbare core), take_len_sub_append_fbare]

theorem strip_code_fences_bare (core : PyStr) :
    strip_code_fences ((fbare ++ '\n' :: core) ++ fbare) = pyStrip ('\n' :: core) := by
  have harg : (fbare ++ '\n' :: core) ++ fbare = fbare ++ '\n' :: (core ++ fbare) := by simp
  have hns : ¬ pyStartsWith (fbare ++ '\n' :: (core ++ fbare)) fjson = true := by
    simp [pyStartsWith_bare_not_fjson]
  have hps := pyStartsWith_append fbare ('\n' :: (core ++ fbare))
  have hdrop : List.drop 3 (fbare ++ '\n' :: (core ++ fbare)) = '\n' :: (core ++ fbare) := by
    rw [show (3 : ℕ) = fbare.length from rfl, List.drop_left]
  have hre : ('\n' :: (core ++ fbare) : PyStr) = ('\n' :: core) ++ fbare := by simp
  simp only [strip_code_fences]
  rw [pyStrip_fenced_bare, harg, if_neg hns, if_pos hps, hdrop, hre,
    if_pos (pyEndsWith_append_fbare ('\n' :: core)), take_len_sub_append_fbare]

theorem strip_code_fences_plain (P : PyStr)
    (hs : pyStartsWith (pyStrip P) fbare = false)
    (he : pyEndsWith (pyStrip P) fbare = false) :
    strip_code_fences P = pyStrip P := by
  have hsj : pyStartsWith (pyStrip P) fjson = false := by
    cases hj : pyStartsWith (pyStrip P) fjson
    · rfl
    · rw [pyStartsWith_fjson_fbare _ hj] at hs
      cases hs
  have h1 : ¬ pyStartsWith (pyStrip P) fjson = true := by simp [hsj]
  have h2 : ¬ pyStartsWith (pyStrip P) fbare = true := by simp [hs]
  have h3 : ¬ pyEndsWith (pyStrip P) fbare = true := by simp [he]
  simp only [strip_code_fences]
  rw [if_neg h1, if_neg h2, if_neg h3, pyStrip_idem]

/-- C6: the structured-completion decoder of `call_gpt_json` produces the
same decoded value whether the model's raw text is the JSON payload `P`
itself, `P` wrapped in a three-backtick fence tagged `json`, or `P` wrapped
in a bare three-backtick fence, each optionally surrounded by whitespace:
the fence-stripped text handed to `json.loads` is `P` stripped of outer
whitespace in all three cases (assuming `P` itself does not begin or end
with a fence marker, as no JSON payload does). -/
theorem C6_fence_stripping (P ws1 ws2 : PyStr)
    (hw1 : ∀ c ∈ ws1, c.isWhitespace = true) (hw2 : ∀ c ∈ ws2, c.isWhitespace = true)
    (hs : pyStartsWith (pyStrip P) fbare = false)
    (he : pyEndsWith (pyStrip P) fbare = false) :
    strip_code_fences (ws1 ++ (fjson ++ '\n' :: (P ++ '\n' :: fbare)) ++ ws2) = pyStrip P ∧
    strip_code_fences (ws1 ++ (fbare ++ '\n' :: (P ++ '\n' :: fbare)) ++ ws2) = pyStrip P ∧
    strip_code_fences P = pyStrip P ∧
    (∀ loads : PyStr → Option JVal,
      call_gpt_json_decode loads (ws1 ++ (fjson ++ '\n' :: (P ++ '\n' :: fbare)) ++ ws2) =
        call_gpt_json_decode loads P ∧
      call_gpt_json_decode loads (ws1 ++ (fbare ++ '\n' :: (P ++ '\n' :: fbare)) ++ ws2) =
        call_gpt_json_decode loads P) := by
  have hnl : ∀ c ∈ (['\n'] : PyStr), c.isWhitespace = true := by decide
  have hcore : ∀ core : PyStr, pyStrip ('\n' :: (core ++ ['\n'])) = pyStrip core := by
    intro core
    have : ('\n' :: (core ++ ['\n']) : PyStr) = ['\n'] ++ (core ++ ['\n']) := rfl
    rw [this, pyStrip_ws_append _ _ hnl, pyStrip_append_ws _ _ hnl]
  have hjson : strip_code_fences (ws1 ++ (fjson ++ '\n' :: (P ++ '\n' :: fbare)) ++ ws2) =
      pyStrip P := by
    have harg : fjson ++ '\n' :: (P ++ '\n' :: fbare) =
        (fjson ++ ('\n' :: (P ++ ['\n']))) ++ fbare := by simp
    have h1 : pyStrip (ws1 ++ (fjson ++ '\n' :: (P ++ '\n' :: fbare)) ++ ws2) =
        pyStrip ((fjson ++ ('\n' :: (P ++ ['\n']))) ++ fbare) := by
      rw [List.append_assoc, pyStrip_ws_append _ _ hw1, pyStrip_append_ws _ _ hw2, harg]
    rw [strip_code_fences_congr _ _ h1, strip_code_fences_json, hcore]
  have hbare : strip_code_fences (ws1 ++ (fbare ++ '\n' :: (P ++ '\n' :: fbare)) ++ ws2) =
      pyStrip P := by
    have harg : fbare ++ '\n' :: (P ++ '\n' :: fbare) =
        (fbare ++ '\n' :: (P ++ ['\n'])) ++ fbare := by simp
    have h1 : pyStrip (ws1 ++ (fbare ++ '\n' :: (P ++ '\n' :: fbare)) ++ ws2) =
        pyStrip ((fbare ++ '\n' :: (P ++ ['\n'])) ++ fbare) := by
      rw [List.append_assoc, pyStrip_ws_append _ _ hw1, pyStrip_append_ws _ _ hw2, harg]
    rw [strip_code_fences_congr _ _ h1, strip_code_fences_bare, hcore]
  have hplain := strip_code_fences_plain P hs he
  refine ⟨hjson, hbare, hplain, fun loads => ⟨?_, ?_⟩⟩
  · unfold call_gpt_json_decode
    rw [hjson, hplain]
  · unfold call_gpt_json_decode
    rw [hbare, hplain]

theorem C6_fence_stripping_witness :
    strip_code_fences ([' '] ++ (fjson ++ '\n' :: ("[1]".data ++ '\n' :: fbare)) ++ ['\n']) =
      "[1]".data ∧
    strip_code_fences ([' '] ++ (fbare ++ '\n' :: ("[1]".data ++ '\n' :: fbare)) ++ ['\n']) =
      "[1]".data ∧
    strip_code_fences ("[1]".data) = "[1]".data := by
  have h := C6_fence_stripping ("[1]".data) [' '] ['\n']
    (by decide) (by decide) (by decide) (by decide)
  have hp : pyStrip ("[1]".data) = "[1]".data := by decide
  exact ⟨h.1.trans hp, h.2.1.trans hp, (h.2.2.1).trans hp⟩

theorem pyInsert_perm (le : ChatMsg → ChatMsg → Bool) (x : ChatMsg) :
    ∀ l : List ChatMsg, (pyInsert le x l).Perm (x :: l)
  | [] => List.Perm.refl _
  | y :: ys => by
    unfold pyInsert
    by_cases h : le x y
    · rw [if_pos h]
    · rw [if_neg h]
      exact (List.Perm.cons y (pyInsert_perm le x ys)).trans (List.Perm.swap x y ys)

theorem pySorted_perm (le : ChatMsg → ChatMsg → Bool) :
    ∀ l : List ChatMsg, (pySorted le l).Perm l
  | [] => List.Perm.refl _
  | x :: xs => by
    unfold pySorted
    exact (pyInsert_perm le x (pySorted le xs)).trans (List.Perm.cons x (pySorted_perm le xs))

theorem pyInsert_pairwise (le : ChatMsg → ChatMsg → Bool)
    (htrans : ∀ a b c, le a b = true → le b c = true → le a c = true)
    (htotal : ∀ a b, (le a b || le b a) = true) (x : ChatMsg) :
    ∀ l : List ChatMsg, List.Pairwise (fun a b => le a b = true) l →
    List.Pairwise (fun a b => le a b = true) (pyInsert le x l)
  | [], _ => List.Pairwise.cons (by simp) List.Pairwise.nil
  | y :: ys, h => by
    unfold pyInsert
    rcases List.pairwise_cons.mp h with ⟨hy, hys⟩
    by_cases hxy : le x y
    · rw [if_pos hxy]
      refine List.pairwise_cons.mpr ⟨?_, h⟩
      intro b hb
      rcases List.mem_cons.mp hb with rfl | hb
      · exact hxy
      · exact htrans x y b hxy (hy b hb)
    · rw [if_neg hxy]
      have hyx : le y x = true := by
        have := htotal x y
        simp only [Bool.or_eq_true] at this
        rcases this with h1 | h1
        · exact absurd h1 hxy
        · exact h1
      refine List.pairwise_cons.mpr ⟨?_, pyInsert_pairwise le htrans htotal x ys hys⟩
      intro b hb
      have hb2 := (pyInsert_perm le x ys).mem_iff.mp hb
      rcases List.mem_cons.mp hb2 with rfl | hb2
      · exact hyx
      · exact hy b hb2

theorem pySorted_pairwise (le : ChatMsg → ChatMsg → Bool)
    (htrans : ∀ a b c, le a b = true → le b c = true → le a c = true)
    (htotal : ∀ a b, (le a b || le b a) = true) :
    ∀ l : List ChatMsg, List.Pairwise (fun a b => le a b = true) (pySorted le l)
  | [] => List.Pairwise.nil
  | x :: xs => by
    unfold pySorted
    exact pyInsert_pairwise le htrans htotal x (pySorted le xs)
      (pySorted_pairwise le htrans htotal xs)

/-- C7: chat-history retrieval returns at most the configured limit (20) of
turns, each drawn from the 20 most-recent turns stored for the document,
re-ordered ascending by timestamp; every returned turn belongs to the
caller, and turns stored under the same document but owned by a different
user are never returned. -/
theorem C7_chat_history (table : List ChatMsg) (documentId userId : String) :
    (get_chat_history_by_document table documentId userId 20).length ≤ 20 ∧
    (∀ m ∈ get_chat_history_by_document table documentId userId 20, m.userId = userId) ∧
    (∀ m ∈ get_chat_history_by_document table documentId userId 20,
      m ∈ query_chat_desc table documentId 20) ∧
    (∀ m ∈ get_chat_history_by_document table documentId userId 20,
      m.documentId = documentId) ∧
    List.Pairwise (fun a b => a.createdAt ≤ b.createdAt)
      (get_chat_history_by_document table documentId userId 20) := by
  have hperm := pySorted_perm (fun a b => decide (a.createdAt ≤ b.createdAt))
    ((query_chat_desc table documentId 20).filter (fun m => m.userId == userId))
  have hmem : ∀ m ∈ get_chat_history_by_document table documentId userId 20,
      m ∈ (query_chat_desc table documentId 20).filter (fun m => m.userId == userId) := by
    intro m hm
    exact hperm.mem_iff.mp hm
  have hmemq : ∀ m ∈ get_chat_history_by_document table documentId userId 20,
      m ∈ query_chat_desc table documentId 20 :=
    fun m hm => (List.mem_filter.mp (hmem m hm)).1
  refine ⟨?_, ?_, hmemq, ?_, ?_⟩
  · calc (get_chat_history_by_document table documentId userId 20).length
        = ((query_chat_desc table documentId 20).filter (fun m => m.userId == userId)).length :=
          hperm.length_eq
      _ ≤ (query_chat_desc table documentId 20).length := List.length_filter_le _ _
      _ ≤ 20 := by
          unfold query_chat_desc
          exact List.length_take_le _ _
  · intro m hm
    exact eq_of_beq (List.mem_filter.mp (hmem m hm)).2
  · intro m hm
    have h1 := hmemq m hm
    unfold query_chat_desc at h1
    have h2 := List.mem_of_mem_take h1
    have h3 := (pySorted_perm _ _).mem_iff.mp h2
    exact eq_of_beq (List.mem_filter.mp h3).2
  · have hsorted := pySorted_pairwise (fun a b => decide (a.createdAt ≤ b.createdAt))
      (fun a b c hab hbc => by
        simp only [decide_eq_true_eq] at *
        omega)
      (fun a b => by
        rcases Nat.le_total a.createdAt b.createdAt with h | h <;> simp [h])
      ((query_chat_desc table documentId 20).filter (fun m => m.userId == userId))
    exact hsorted.imp (fun h => of_decide_eq_true h)

theorem C7_chat_history_witness :
    get_chat_history_by_document
      [⟨"c1", "d", "u1", "q1", "a1", 1⟩, ⟨"c2", "d", "u2", "q2", "a2", 2⟩,
       ⟨"c3", "d", "u1", "q3", "a3", 3⟩] "d" "u1" 20 =
      [⟨"c1", "d", "u1", "q1", "a1", 1⟩, ⟨"c3", "d", "u1", "q3", "a3", 3⟩] ∧
    ∀ m ∈ get_chat_history_by_document
      [⟨"c1", "d", "u1", "q1", "a1", 1⟩, ⟨"c2", "d", "u2", "q2", "a2", 2⟩,
       ⟨"c3", "d", "u1", "q3", "a3", 3⟩] "d" "u1" 20, m.userId = "u1" := by
  constructor
  · rfl
  · exact (C7_chat_history
      [⟨"c1", "d", "u1", "q1", "a1", 1⟩, ⟨"c2", "d", "u2", "q2", "a2", 2⟩,
       ⟨"c3", "d", "u1", "q3", "a3", 3⟩] "d" "u1").2.1

/-- C10: the explain-concept length gate at the public interface: a
non-empty text of exactly 5000 characters is accepted (the 400 "Text too
long" rejection fires only for length strictly greater than 5000), and an
empty or absent text yields a 400 before any model call — the rejection
responses do not depend on the model oracle. -/
theorem C10_explain_gate (textF conceptF : Option PyStr) (levelF : Option String)
    (gpt : Except String String) :
    (pyOrStr textF (conceptF.getD []) = [] →
      ∀ g, explain_concept textF conceptF levelF g =
        errorResp 400 "Text or concept is required") ∧
    (pyOrStr textF (conceptF.getD []) ≠ [] →
      5000 < (pyOrStr textF (conceptF.getD [])).length →
      ∀ g, explain_concept textF conceptF levelF g = errorResp 400 "Text too long") ∧
    (pyOrStr textF (conceptF.getD []) ≠ [] →
      (pyOrStr textF (conceptF.getD [])).length ≤ 5000 →
      ∀ e, gpt = .ok e →
        explain_concept textF conceptF levelF gpt =
          ⟨200, .obj [("originalText", .str (String.mk (pyOrStr textF (conceptF.getD [])))),
                      ("level", .str (levelF.getD "eli5")),
                      ("explanation", .str e)]⟩) := by
  refine ⟨?_, ?_, ?_⟩
  · intro h g
    simp only [explain_concept, h, if_pos rfl]
    rfl
  · intro h1 h2 g
    simp only [explain_concept, if_neg h1, if_pos h2]
  · intro h1 h2 e he
    subst he
    simp only [explain_concept, if_neg h1, if_neg (by omega : ¬ 5000 <
      (pyOrStr textF (conceptF.getD [])).length)]

theorem C10_explain_gate_witness :
    explain_concept (some (List.replicate 5000 'a')) none none (.ok "x") =
      ⟨200, .obj [("originalText", .str (String.mk (List.replicate 5000 'a'))),
                  ("level", .str "eli5"), ("explanation", .str "x")]⟩ ∧
    explain_concept (some (List.replicate 5001 'a')) none none (.ok "x") =
      errorResp 400 "Text too long" ∧
    explain_concept none none none (.ok "x") =
      errorResp 400 "Text or concept is required" := by
  have hne : (List.replicate 5000 'a' : PyStr) ≠ [] := by
    intro h
    have h2 := congrArg List.length h
    rw [List.length_replicate, List.length_nil] at h2
    omega
  have hne1 : (List.replicate 5001 'a' : PyStr) ≠ [] := by
    intro h
    have h2 := congrArg List.length h
    rw [List.length_replicate, List.length_nil] at h2
    omega
  have hp : pyOrStr (some (List.replicate 5000 'a')) ((none : Option PyStr).getD []) =
      List.replicate 5000 'a' := by
    simp only [pyOrStr]
    rw [if_pos hne]
  have hp1 : pyOrStr (some (List.replicate 5001 'a')) ((none : Option PyStr).getD []) =
      List.replicate 5001 'a' := by
    simp only [pyOrStr]
    rw [if_pos hne1]
  have h := C10_explain_gate (some (List.replicate 5000 'a')) none none (.ok "x")
  have h1 := C10_explain_gate (some (List.replicate 5001 'a')) none none (.ok "x")
  have h2 := C10_explain_gate none none none (.ok "x")
  refine ⟨?_, ?_, ?_⟩
  · have hr := h.2.2 (by rw [hp]; exact hne)
      (by rw [hp, List.length_replicate]) "x" rfl
    rw [hp] at hr
    exact hr
  · exact h1.2.1 (by rw [hp1]; exact hne1)
      (by rw [hp1, List.length_replicate]; omega) (.ok "x")
  · exact h2.1 rfl (.ok "x")

/-- C5: every document-scoped operation (summarize, get summary, create/get
flashcards, create quiz, get quiz, submit quiz, chat, chat history, get/
delete document) first loads its target entity and fails 404 "not found"
when it is absent, and fails 403 "Access denied" when the stored owner
differs from the resolved caller identity — in both cases the response is
the fixed error object (no entity data) and the effect list is empty (no
state mutated), independently of every oracle.  The chat operation
validates its required question field before loading the target, so its
clauses are stated for a non-empty question. -/
theorem C5_access_guard :
    (∀ (userId documentId : String) (language : Option String)
        (docs : String → Option Doc) (s3 : String → Option FileBlob)
        (gpt : Except String String) (freshId now : String),
      (docs documentId = none →
        summarize_document userId documentId language docs s3 gpt freshId now =
          (errorResp 404 "Document not found", [])) ∧
      (∀ d, docs documentId = some d → d.userId ≠ userId →
        summarize_document userId documentId language docs s3 gpt freshId now =
          (errorResp 403 "Access denied", []))) ∧
    (∀ (userId documentId : String) (docs : String → Option Doc)
        (summaries : String → Option SummaryRec),
      (docs documentId = none →
        get_summary userId documentId docs summaries =
          (errorResp 404 "Document not found", [])) ∧
      (∀ d, docs documentId = some d → d.userId ≠ userId →
        get_summary userId documentId docs summaries =
          (errorResp 403 "Access denied", []))) ∧
    (∀ (userId documentId : String) (title language : Option String)
        (docs : String → Option Doc) (gptJson : Except String JVal) (freshId now : String),
      (docs documentId = none →
        create_flashcards userId documentId title language docs gptJson freshId now =
          (errorResp 404 "Document not found", [])) ∧
      (∀ d, docs documentId = some d → d.userId ≠ userId →
        create_flashcards userId documentId title language docs gptJson freshId now =
          (errorResp 403 "Access denied", []))) ∧
    (∀ (userId documentId : String) (docs : String → Option Doc)
        (fsetsByDoc : List FlashcardSetRec),
      (docs documentId = none →
        get_flashcards userId documentId docs fsetsByDoc =
          (errorResp 404 "Document not found", [])) ∧
      (∀ d, docs documentId = some d → d.userId ≠ userId →
        get_flashcards userId documentId docs fsetsByDoc =
          (errorResp 403 "Access denied", []))) ∧
    (∀ (userId documentId : String) (questionCount numQuestions : Option ℕ)
        (title language : Option String) (docs : String → Option Doc)
        (gptJson : Except String JVal) (freshId now : String),
      (docs documentId = none →
        create_quiz userId documentId questionCount numQuestions title language docs
            gptJson freshId now =
          (errorResp 404 "Document not found", [])) ∧
      (∀ d, docs documentId = some d → d.userId ≠ userId →
        create_quiz userId documentId questionCount numQuestions title language docs
            gptJson freshId now =
          (errorResp 403 "Access denied", []))) ∧
    (∀ (userId quizId : String) (quizzes : String → Option QuizRec),
      (quizzes quizId = none →
        get_quiz userId quizId quizzes = (errorResp 404 "Quiz not found", [])) ∧
      (∀ q, quizzes quizId = some q → q.userId ≠ userId →
        get_quiz userId quizId quizzes = (errorResp 403 "Access denied", []))) ∧
    (∀ (userId quizId : String) (answers : JObj) (quizzes : String → Option QuizRec)
        (freshId now : String),
      (quizzes quizId = none →
        submit_quiz userId quizId answers quizzes freshId now =
          (errorResp 404 "Quiz not found", [])) ∧
      (∀ q, quizzes quizId = some q → q.userId ≠ userId →
        submit_quiz userId quizId answers quizzes freshId now =
          (errorResp 403 "Access denied", []))) ∧
    (∀ (userId documentId : String) (question message : Option PyStr)
        (language : Option String) (docs : String → Option Doc)
        (gpt : Except String String) (freshId : String) (nowT : ℕ),
      pyOrStr question (message.getD []) ≠ [] →
      (docs documentId = none →
        chat_with_document userId documentId question message language docs gpt
            freshId nowT =
          (errorResp 404 "Document not found", [])) ∧
      (∀ d, docs documentId = some d → d.userId ≠ userId →
        chat_with_document userId documentId question message language docs gpt
            freshId nowT =
          (errorResp 403 "Access denied", []))) ∧
    (∀ (userId documentId : String) (docs : String → Option Doc)
        (chatTable : List ChatMsg),
      (docs documentId = none →
        get_chat_history userId documentId docs chatTable =
          (errorResp 404 "Document not found", [])) ∧
      (∀ d, docs documentId = some d → d.userId ≠ userId →
        get_chat_history userId documentId docs chatTable =
          (errorResp 403 "Access denied", []))) ∧
    (∀ (userId documentId : String) (docs : String → Option Doc)
        (summaries : String → Option SummaryRec) (fsetsByDoc : List FlashcardSetRec),
      (docs documentId = none →
        get_document userId documentId docs summaries fsetsByDoc =
          (errorResp 404 "Document not found", [])) ∧
      (∀ d, docs documentId = some d → d.userId ≠ userId →
        get_document userId documentId docs summaries fsetsByDoc =
          (errorResp 403 "Access denied", []))) ∧
    (∀ (userId documentId : String) (docs : String → Option Doc),
      (docs documentId = none →
        delete_document userId documentId docs =
          (errorResp 404 "Document not found", [])) ∧
      (∀ d, docs documentId = some d → d.userId ≠ userId →
        delete_document userId documentId docs =
          (errorResp 403 "Access denied", []))) := by
  refine ⟨?_, ?_, ?_, ?_, ?_, ?_, ?_, ?_, ?_, ?_, ?_⟩
  · intro userId documentId language docs s3 gpt freshId now
    exact ⟨fun h => by simp [summarize_document, h],
      fun d hd hu => by simp [summarize_document, hd, hu]⟩
  · intro userId documentId docs summaries
    exact ⟨fun h => by simp [get_summary, h],
      fun d hd hu => by simp [get_summary, hd, hu]⟩
  · intro userId documentId title language docs gptJson freshId now
    exact ⟨fun h => by simp [create_flashcards, h],
      fun d hd hu => by simp [create_flashcards, hd, hu]⟩
  · intro userId documentId docs fsetsByDoc
    exact ⟨fun h => by simp [get_flashcards, h],
      fun d hd hu => by simp [get_flashcards, hd, hu]⟩
  · intro userId documentId questionCount numQuestions title language docs gptJson freshId now
    exact ⟨fun h => by simp [create_quiz, h],
      fun d hd hu => by simp [create_quiz, hd, hu]⟩
  · intro userId quizId quizzes
    exact ⟨fun h => by simp [get_quiz, h],
      fun q hq hu => by simp [get_quiz, hq, hu]⟩
  · intro userId quizId answers quizzes freshId now
    exact ⟨fun h => by simp [submit_quiz, h],
      fun q hq hu => by simp [submit_quiz, hq, hu]⟩
  · intro userId documentId question message language docs gpt freshId nowT hq
    exact ⟨fun h => by simp [chat_with_document, hq, h],
      fun d hd hu => by simp [chat_with_document, hq, hd, hu]⟩
  · intro userId documentId docs chatTable
    exact ⟨fun h => by simp [get_chat_history, h],
      fun d hd hu => by simp [get_chat_history, hd, hu]⟩
  · intro userId documentId docs summaries fsetsByDoc
    exact ⟨fun h => by simp [get_document, h],
      fun d hd hu => by simp [get_document, hd, hu]⟩
  · intro userId documentId docs
    exact ⟨fun h => by simp [delete_document, h],
      fun d hd hu => by simp [delete_document, hd, hu]⟩

theorem C5_access_guard_witness :
    summarize_document "u" "d" none (fun _ => none) (fun _ => none) (.ok "s") "i" "t" =
      (errorResp 404 "Document not found", []) ∧
    get_quiz "u" "qz" (fun _ => some ⟨"qz", "d", "owner", "t", .arr [], 0, "vi", [], "now"⟩) =
      (errorResp 403 "Access denied", []) ∧
    delete_document "u" "d" (fun _ => some ⟨"d", "owner", [], "k", 0, "txt", ['x'], "c", "a"⟩) =
      (errorResp 403 "Access denied", []) := by
  refine ⟨?_, ?_, ?_⟩
  · exact (C5_access_guard.1 "u" "d" none (fun _ => none) (fun _ => none)
      (.ok "s") "i" "t").1 rfl
  · exact (C5_access_guard.2.2.2.2.2.1 "u" "qz"
      (fun _ => some ⟨"qz", "d", "owner", "t", .arr [], 0, "vi", [], "now"⟩)).2
      ⟨"qz", "d", "owner", "t", .arr [], 0, "vi", [], "now"⟩ rfl (by decide)
  · exact (C5_access_guard.2.2.2.2.2.2.2.2.2.2 "u" "d"
      (fun _ => some ⟨"d", "owner", [], "k", 0, "txt", ['x'], "c", "a"⟩)).2
      ⟨"d", "owner", [], "k", 0, "txt", ['x'], "c", "a"⟩ rfl (by decide)
